import Mathlib

/-!
Shallow embedding of the application state and navigation engine of the
monjo-kompass terminal database browser (src/src/app/state.rs), together
with proofs about its operations.

Rust `String` text buffers edited by push/pop-last-character are embedded
as `List Char` (push appends, pop drops the last element); `usize` indices
are `Nat`; `&mut self` methods become state-passing functions
`AppState → AppState`.  The external libraries called by `apply_filter`
(generic JSON parsing and conversion to the database's native document
form) are not part of this repository, so `apply_filter` takes them as
function parameters: theorems about it hold for every behaviour of those
libraries.
-/

/-- Modelled from the spec: `Screen` (src/src/app/screen.rs is not present
under src/) — one of the four mutually exclusive top-level views. -/
inductive Screen where
  | Connection
  | DatabaseList
  | CollectionList
  | DocumentView
deriving DecidableEq, Repr

/-- Modelled from the spec: the generic structured text form (JSON values:
nested objects, arrays, strings, numbers, booleans, null) produced by the
external parser that `apply_filter` invokes. -/
inductive Json where
  | null
  | bool (b : Bool)
  | num (n : Int)
  | str (s : String)
  | arr (xs : List Json)
  | obj (fields : List (String × Json))

/-- Modelled from the spec: the database's native filter/document
representation (the `Document` type of the external database library,
opaque to this core). -/
structure Document where
  entries : List (String × Json)

/-- Modelled from the spec: opaque server summary (host, version) supplied
by the database collaborator (src/src/models is not present under src/). -/
structure ServerInfo where
  host : String
  version : String
deriving DecidableEq, Repr

/-- Modelled from the spec: read-only database summary (name, counts, size)
supplied by the database collaborator. -/
structure DatabaseInfo where
  name : String
  size_on_disk : Int
deriving DecidableEq, Repr

/-- Modelled from the spec: read-only collection summary (name, counts)
supplied by the database collaborator. -/
structure CollectionInfo where
  name : String
  count : Int
deriving DecidableEq, Repr

structure ConnectionState where
  uri : String
  server_info : ServerInfo
deriving DecidableEq, Repr

structure AppState where
  connection : Option ConnectionState
  current_database : Option String
  current_collection : Option String
  databases : List DatabaseInfo
  collections : List CollectionInfo
  documents : List Document
  current_page : Nat
  page_size : Nat
  filter : Option Document
  loading : Bool
  error : Option String
  should_quit : Bool
  selected_db_index : Nat
  selected_coll_index : Nat
  current_screen : Screen
  selected_doc_index : Nat
  doc_scroll_offset : Nat
  connection_input : List Char
  input_mode : Bool
  filter_input : List Char
  filter_mode : Bool
  query_mode : Bool
  query_input : List Char
  connection_history : List String
  selected_history_index : Nat
  show_history : Bool

def AppState.new : AppState where
  connection := none
  current_database := none
  current_collection := none
  databases := []
  collections := []
  documents := []
  current_page := 0
  page_size := 20
  filter := none
  loading := false
  error := none
  should_quit := false
  selected_db_index := 0
  selected_coll_index := 0
  current_screen := Screen.Connection
  selected_doc_index := 0
  doc_scroll_offset := 0
  connection_input := "mongodb://localhost:27017".data
  input_mode := false
  filter_input := []
  filter_mode := false
  query_input := []
  query_mode := false
  connection_history := []
  selected_history_index := 0
  show_history := false

def AppState.set_connection (s : AppState) (uri : String) (server_info : ServerInfo) : AppState :=
  { s with connection := some ⟨uri, server_info⟩ }

def AppState.set_databases (s : AppState) (databases : List DatabaseInfo) : AppState :=
  { s with databases := databases, selected_db_index := 0 }

def AppState.set_collections (s : AppState) (collections : List CollectionInfo) : AppState :=
  { s with collections := collections, selected_coll_index := 0 }

def AppState.set_documents (s : AppState) (documents : List Document) : AppState :=
  { s with documents := documents }

def AppState.set_loading (s : AppState) (loading : Bool) : AppState :=
  { s with loading := loading }

def AppState.set_error (s : AppState) (error : Option String) : AppState :=
  { s with error := error }

def AppState.quit (s : AppState) : AppState :=
  { s with should_quit := true }

def AppState.is_connected (s : AppState) : Bool :=
  s.connection.isSome

def AppState.select_next_db (s : AppState) : AppState :=
  if !s.databases.isEmpty then
    { s with selected_db_index := (s.selected_db_index + 1) % s.databases.length }
  else s

def AppState.select_prev_db (s : AppState) : AppState :=
  if !s.databases.isEmpty then
    if s.selected_db_index = 0 then
      { s with selected_db_index := s.databases.length - 1 }
    else
      { s with selected_db_index := s.selected_db_index - 1 }
  else s

def AppState.select_next_coll (s : AppState) : AppState :=
  if !s.collections.isEmpty then
    { s with selected_coll_index := (s.selected_coll_index + 1) % s.collections.length }
  else s

def AppState.select_prev_coll (s : AppState) : AppState :=
  if !s.collections.isEmpty then
    if s.selected_coll_index = 0 then
      { s with selected_coll_index := s.collections.length - 1 }
    else
      { s with selected_coll_index := s.selected_coll_index - 1 }
  else s

def AppState.get_selected_database (s : AppState) : Option DatabaseInfo :=
  s.databases[s.selected_db_index]?

def AppState.get_selected_collection (s : AppState) : Option CollectionInfo :=
  s.collections[s.selected_coll_index]?

def AppState.set_screen (s : AppState) (screen : Screen) : AppState :=
  { s with current_screen := screen }

def AppState.select_next_doc (s : AppState) : AppState :=
  if !s.documents.isEmpty then
    { s with selected_doc_index := (s.selected_doc_index + 1) % s.documents.length }
  else s

def AppState.select_prev_doc (s : AppState) : AppState :=
  if !s.documents.isEmpty then
    if s.selected_doc_index = 0 then
      { s with selected_doc_index := s.documents.length - 1 }
    else
      { s with selected_doc_index := s.selected_doc_index - 1 }
  else s

def AppState.scroll_doc_down (s : AppState) : AppState :=
  { s with doc_scroll_offset := s.doc_scroll_offset + 1 }

def AppState.scroll_doc_up (s : AppState) : AppState :=
  if s.doc_scroll_offset > 0 then
    { s with doc_scroll_offset := s.doc_scroll_offset - 1 }
  else s

def AppState.get_selected_document (s : AppState) : Option Document :=
  s.documents[s.selected_doc_index]?

def AppState.enter_input_mode (s : AppState) : AppState :=
  { s with input_mode := true }

def AppState.exit_input_mode (s : AppState) : AppState :=
  { s with input_mode := false }

def AppState.clear_input (s : AppState) : AppState :=
  { s with connection_input := [] }

def AppState.push_char (s : AppState) (c : Char) : AppState :=
  { s with connection_input := s.connection_input ++ [c] }

def AppState.pop_char (s : AppState) : AppState :=
  { s with connection_input := s.connection_input.dropLast }

def AppState.enter_filter_mode (s : AppState) : AppState :=
  { s with filter_mode := true }

def AppState.exit_filter_mode (s : AppState) : AppState :=
  { s with filter_mode := false }

def AppState.clear_filter (s : AppState) : AppState :=
  { s with filter_input := [], filter := none }

def AppState.push_filter_char (s : AppState) (c : Char) : AppState :=
  { s with filter_input := s.filter_input ++ [c] }

def AppState.pop_filter_char (s : AppState) : AppState :=
  { s with filter_input := s.filter_input.dropLast }

/-- `apply_filter` from src/src/app/state.rs.  The two external library
calls (`serde_json::from_str` and `mongodb::bson::to_document`) are taken
as the parameters `from_str` and `to_document`. -/
def AppState.apply_filter (s : AppState)
    (from_str : List Char → Except String Json)
    (to_document : Json → Except String Document) :
    AppState × Except String Unit :=
  let input := if !s.query_input.isEmpty then s.query_input else s.filter_input
  if input.isEmpty then
    ({ s with filter := none }, Except.ok ())
  else
    match from_str input with
    | Except.ok json_value =>
      match to_document json_value with
      | Except.ok doc => ({ s with filter := some doc }, Except.ok ())
      | Except.error e => (s, Except.error ("Invalid filter: " ++ e))
    | Except.error e => (s, Except.error ("Invalid JSON: " ++ e))

def AppState.enter_query_mode (s : AppState) : AppState :=
  { s with query_mode := true }

def AppState.exit_query_mode (s : AppState) : AppState :=
  { s with query_mode := false }

def AppState.push_every_char (s : AppState) (c : Char) : AppState :=
  { s with query_input := s.query_input ++ [c] }

def AppState.pop_every_char (s : AppState) : AppState :=
  { s with query_input := s.query_input.dropLast }

def AppState.clear_query (s : AppState) : AppState :=
  { s with query_input := [] }

def AppState.push_query_char (s : AppState) (c : Char) : AppState :=
  { s with query_input := s.query_input ++ [c] }

def AppState.pop_query_char (s : AppState) : AppState :=
  { s with query_input := s.query_input.dropLast }

def AppState.set_connection_history (s : AppState) (history : List String) : AppState :=
  { s with connection_history := history }

def AppState.toggle_history (s : AppState) : AppState :=
  { s with show_history := !s.show_history }

def AppState.select_next_history (s : AppState) : AppState :=
  if !s.connection_history.isEmpty then
    { s with selected_history_index :=
        (s.selected_history_index + 1) % s.connection_history.length }
  else s

def AppState.select_prev_history (s : AppState) : AppState :=
  if !s.connection_history.isEmpty then
    if s.selected_history_index = 0 then
      { s with selected_history_index := s.connection_history.length - 1 }
    else
      { s with selected_history_index := s.selected_history_index - 1 }
  else s

def AppState.get_selected_history_uri (s : AppState) : Option String :=
  s.connection_history[s.selected_history_index]?

/-- One constructor per `&mut self` method of `AppState`: the complete
mutation surface of the aggregate.  `apply_filter` carries the two external
library functions it is invoked with; as a mutation it keeps the updated
state and discards the returned `Result`. -/
inductive Op where
  | set_connection (uri : String) (server_info : ServerInfo)
  | set_databases (databases : List DatabaseInfo)
  | set_collections (collections : List CollectionInfo)
  | set_documents (documents : List Document)
  | set_loading (loading : Bool)
  | set_error (error : Option String)
  | quit
  | select_next_db
  | select_prev_db
  | select_next_coll
  | select_prev_coll
  | set_screen (screen : Screen)
  | select_next_doc
  | select_prev_doc
  | scroll_doc_down
  | scroll_doc_up
  | enter_input_mode
  | exit_input_mode
  | clear_input
  | push_char (c : Char)
  | pop_char
  | enter_filter_mode
  | exit_filter_mode
  | clear_filter
  | push_filter_char (c : Char)
  | pop_filter_char
  | apply_filter (from_str : List Char → Except String Json)
      (to_document : Json → Except String Document)
  | enter_query_mode
  | exit_query_mode
  | push_every_char (c : Char)
  | pop_every_char
  | clear_query
  | push_query_char (c : Char)
  | pop_query_char
  | set_connection_history (history : List String)
  | toggle_history
  | select_next_history
  | select_prev_history

def applyOp (o : Op) (s : AppState) : AppState :=
  match o with
  | Op.set_connection uri info => s.set_connection uri info
  | Op.set_databases dbs => s.set_databases dbs
  | Op.set_collections cs => s.set_collections cs
  | Op.set_documents ds => s.set_documents ds
  | Op.set_loading b => s.set_loading b
  | Op.set_error e => s.set_error e
  | Op.quit => s.quit
  | Op.select_next_db => s.select_next_db
  | Op.select_prev_db => s.select_prev_db
  | Op.select_next_coll => s.select_next_coll
  | Op.select_prev_coll => s.select_prev_coll
  | Op.set_screen sc => s.set_screen sc
  | Op.select_next_doc => s.select_next_doc
  | Op.select_prev_doc => s.select_prev_doc
  | Op.scroll_doc_down => s.scroll_doc_down
  | Op.scroll_doc_up => s.scroll_doc_up
  | Op.enter_input_mode => s.enter_input_mode
  | Op.exit_input_mode => s.exit_input_mode
  | Op.clear_input => s.clear_input
  | Op.push_char c => s.push_char c
  | Op.pop_char => s.pop_char
  | Op.enter_filter_mode => s.enter_filter_mode
  | Op.exit_filter_mode => s.exit_filter_mode
  | Op.clear_filter => s.clear_filter
  | Op.push_filter_char c => s.push_filter_char c
  | Op.pop_filter_char => s.pop_filter_char
  | Op.apply_filter p c => (s.apply_filter p c).1
  | Op.enter_query_mode => s.enter_query_mode
  | Op.exit_query_mode => s.exit_query_mode
  | Op.push_every_char c => s.push_every_char c
  | Op.pop_every_char => s.pop_every_char
  | Op.clear_query => s.clear_query
  | Op.push_query_char c => s.push_query_char c
  | Op.pop_query_char => s.pop_query_char
  | Op.set_connection_history h => s.set_connection_history h
  | Op.toggle_history => s.toggle_history
  | Op.select_next_history => s.select_next_history
  | Op.select_prev_history => s.select_prev_history

/-- Modelled from the spec: the input-handling layer (not present under
src/) invokes `apply_filter` and reports a failure by setting the
aggregate's `error` field to the returned human-readable message via
`set_error`, so the rendering layer can display it. -/
def AppState.apply_filter_and_report (s : AppState)
    (from_str : List Char → Except String Json)
    (to_document : Json → Except String Document) : AppState :=
  match s.apply_filter from_str to_document with
  | (t, Except.ok _) => t
  | (t, Except.error msg) => t.set_error (some msg)

/-- A concrete reachable state with all four lists non-empty and all four
cursors in range, used to instantiate universally quantified theorems. -/
def sampleState : AppState :=
  ((((AppState.new.set_databases [⟨"admin", 1⟩]).set_collections
      [⟨"users", 2⟩]).set_documents [⟨[]⟩]).set_connection_history
      ["mongodb://localhost:27017"])

/-- Claim C1, as stated, is false: `set_documents` replaces the document
list but does not reset `selected_doc_index`.  Concretely, from the fresh
state, loading two documents, selecting the second, and then loading a
one-element document list leaves the cursor at 1, not 0. -/
theorem C1_counterexample :
    (((AppState.new.set_documents [⟨[]⟩, ⟨[]⟩]).select_next_doc).set_documents
        [⟨[]⟩]).selected_doc_index ≠ 0 := by decide

/-- Claim C1, amended: for every prior state and every new list,
`set_databases` resets `selected_db_index` to 0 and `set_collections`
resets `selected_coll_index` to 0, but `set_documents` leaves
`selected_doc_index` exactly as it was. -/
theorem C1_list_setter_cursor_reset (s : AppState) (dbs : List DatabaseInfo)
    (cs : List CollectionInfo) (ds : List Document) :
    (s.set_databases dbs).selected_db_index = 0
  ∧ (s.set_collections cs).selected_coll_index = 0
  ∧ (s.set_documents ds).selected_doc_index = s.selected_doc_index :=
  ⟨rfl, rfl, rfl⟩

lemma apply_filter_fst_should_quit (s : AppState)
    (p : List Char → Except String Json)
    (c : Json → Except String Document) :
    ((s.apply_filter p c).1).should_quit = s.should_quit := by
  simp only [AppState.apply_filter]
  repeat' split
  all_goals rfl

lemma applyOp_should_quit_mono (o : Op) (s : AppState)
    (h : s.should_quit = true) : (applyOp o s).should_quit = true := by
  cases o <;>
    simp only [applyOp, AppState.set_connection, AppState.set_databases,
      AppState.set_collections, AppState.set_documents, AppState.set_loading,
      AppState.set_error, AppState.quit, AppState.select_next_db,
      AppState.select_prev_db, AppState.select_next_coll,
      AppState.select_prev_coll, AppState.set_screen, AppState.select_next_doc,
      AppState.select_prev_doc, AppState.scroll_doc_down,
      AppState.scroll_doc_up, AppState.enter_input_mode,
      AppState.exit_input_mode, AppState.clear_input, AppState.push_char,
      AppState.pop_char, AppState.enter_filter_mode, AppState.exit_filter_mode,
      AppState.clear_filter, AppState.push_filter_char,
      AppState.pop_filter_char, AppState.enter_query_mode,
      AppState.exit_query_mode, AppState.push_every_char,
      AppState.pop_every_char, AppState.clear_query, AppState.push_query_char,
      AppState.pop_query_char, AppState.set_connection_history,
      AppState.toggle_history, AppState.select_next_history,
      AppState.select_prev_history, apply_filter_fst_should_quit] <;>
    first
      | exact h
      | rfl
      | (split <;> first | exact h | (split <;> exact h))

lemma foldl_applyOp_should_quit (ops : List Op) (s : AppState)
    (h : s.should_quit = true) :
    (ops.foldl (fun t o => applyOp o t) s).should_quit = true := by
  induction ops generalizing s with
  | nil => exact h
  | cons o ops ih => exact ih _ (applyOp_should_quit_mono o s h)

/-- Claim C6: `quit` sets `should_quit`, and after `quit` every sequence of
mutation operations on the aggregate leaves `should_quit` true — no
operation ever sets it back to false. -/
theorem C6_quit_one_way :
    (∀ s : AppState, (s.quit).should_quit = true)
  ∧ ∀ (s : AppState) (ops : List Op),
      (ops.foldl (fun t o => applyOp o t) s.quit).should_quit = true :=
  ⟨fun _ => rfl, fun s ops => foldl_applyOp_should_quit ops s.quit rfl⟩

/-- Claim C7: `set_screen` assigns `current_screen` and changes no other
field of the aggregate. -/
theorem C7_set_screen_frame (s : AppState) (sc : Screen) :
    (s.set_screen sc).current_screen = sc
  ∧ (s.set_screen sc).connection = s.connection
  ∧ (s.set_screen sc).current_database = s.current_database
  ∧ (s.set_screen sc).current_collection = s.current_collection
  ∧ (s.set_screen sc).databases = s.databases
  ∧ (s.set_screen sc).collections = s.collections
  ∧ (s.set_screen sc).documents = s.documents
  ∧ (s.set_screen sc).current_page = s.current_page
  ∧ (s.set_screen sc).page_size = s.page_size
  ∧ (s.set_screen sc).filter = s.filter
  ∧ (s.set_screen sc).loading = s.loading
  ∧ (s.set_screen sc).error = s.error
  ∧ (s.set_screen sc).should_quit = s.should_quit
  ∧ (s.set_screen sc).selected_db_index = s.selected_db_index
  ∧ (s.set_screen sc).selected_coll_index = s.selected_coll_index
  ∧ (s.set_screen sc).selected_doc_index = s.selected_doc_index
  ∧ (s.set_screen sc).doc_scroll_offset = s.doc_scroll_offset
  ∧ (s.set_screen sc).connection_input = s.connection_input
  ∧ (s.set_screen sc).input_mode = s.input_mode
  ∧ (s.set_screen sc).filter_input = s.filter_input
  ∧ (s.set_screen sc).filter_mode = s.filter_mode
  ∧ (s.set_screen sc).query_mode = s.query_mode
  ∧ (s.set_screen sc).query_input = s.query_input
  ∧ (s.set_screen sc).connection_history = s.connection_history
  ∧ (s.set_screen sc).selected_history_index = s.selected_history_index
  ∧ (s.set_screen sc).show_history = s.show_history :=
  ⟨rfl, rfl, rfl, rfl, rfl, rfl, rfl, rfl, rfl, rfl, rfl, rfl, rfl, rfl, rfl,
   rfl, rfl, rfl, rfl, rfl, rfl, rfl, rfl, rfl, rfl, rfl⟩

/-- Claim C9: `push_every_char` produces exactly the same state as
`push_query_char`, and `pop_every_char` the same as `pop_query_char`, for
every starting state and character; both pairs edit the query buffer with
append/drop-last semantics and neither entry point toggles `query_mode`. -/
theorem C9_every_char_equals_query_char (s : AppState) (c : Char) :
    s.push_every_char c = s.push_query_char c
  ∧ s.pop_every_char = s.pop_query_char
  ∧ (s.push_every_char c).query_input = s.query_input ++ [c]
  ∧ (s.pop_every_char).query_input = s.query_input.dropLast
  ∧ (s.push_every_char c).query_mode = s.query_mode
  ∧ (s.pop_every_char).query_mode = s.query_mode
  ∧ (s.push_query_char c).query_mode = s.query_mode
  ∧ (s.pop_query_char).query_mode = s.query_mode :=
  ⟨rfl, rfl, rfl, rfl, rfl, rfl, rfl, rfl⟩

/-- Claim C10: `clear_query` empties the query buffer and changes no other
field — in particular, unlike `clear_filter` (which also clears the
compiled filter), it leaves the compiled `filter` unchanged. -/
theorem C10_clear_query_frame (s : AppState) :
    (s.clear_query).query_input = []
  ∧ (s.clear_query).filter = s.filter
  ∧ (s.clear_filter).filter = none
  ∧ (s.clear_query).connection = s.connection
  ∧ (s.clear_query).current_database = s.current_database
  ∧ (s.clear_query).current_collection = s.current_collection
  ∧ (s.clear_query).databases = s.databases
  ∧ (s.clear_query).collections = s.collections
  ∧ (s.clear_query).documents = s.documents
  ∧ (s.clear_query).current_page = s.current_page
  ∧ (s.clear_query).page_size = s.page_size
  ∧ (s.clear_query).loading = s.loading
  ∧ (s.clear_query).error = s.error
  ∧ (s.clear_query).should_quit = s.should_quit
  ∧ (s.clear_query).selected_db_index = s.selected_db_index
  ∧ (s.clear_query).selected_coll_index = s.selected_coll_index
  ∧ (s.clear_query).current_screen = s.current_screen
  ∧ (s.clear_query).selected_doc_index = s.selected_doc_index
  ∧ (s.clear_query).doc_scroll_offset = s.doc_scroll_offset
  ∧ (s.clear_query).connection_input = s.connection_input
  ∧ (s.clear_query).input_mode = s.input_mode
  ∧ (s.clear_query).filter_input = s.filter_input
  ∧ (s.clear_query).filter_mode = s.filter_mode
  ∧ (s.clear_query).query_mode = s.query_mode
  ∧ (s.clear_query).connection_history = s.connection_history
  ∧ (s.clear_query).selected_history_index = s.selected_history_index
  ∧ (s.clear_query).show_history = s.show_history :=
  ⟨rfl, rfl, rfl, rfl, rfl, rfl, rfl, rfl, rfl, rfl, rfl, rfl, rfl, rfl, rfl,
   rfl, rfl, rfl, rfl, rfl, rfl, rfl, rfl, rfl, rfl, rfl, rfl⟩

lemma apply_filter_parse_error (s : AppState)
    (p : List Char → Except String Json) (c : Json → Except String Document)
    (e : String)
    (hne : (if !s.query_input.isEmpty then s.query_input else s.filter_input) ≠ [])
    (he : p (if !s.query_input.isEmpty then s.query_input else s.filter_input)
        = Except.error e) :
    s.apply_filter p c = (s, Except.error ("Invalid JSON: " ++ e)) := by
  have hb : (if !s.query_input.isEmpty then s.query_input
      else s.filter_input).isEmpty = false := List.isEmpty_eq_false.mpr hne
  simp only [AppState.apply_filter, hb, he]
  rfl

lemma apply_filter_convert_error (s : AppState)
    (p : List Char → Except String Json) (c : Json → Except String Document)
    (j : Json) (e : String)
    (hne : (if !s.query_input.isEmpty then s.query_input else s.filter_input) ≠ [])
    (hj : p (if !s.query_input.isEmpty then s.query_input else s.filter_input)
        = Except.ok j)
    (hc : c j = Except.error e) :
    s.apply_filter p c = (s, Except.error ("Invalid filter: " ++ e)) := by
  have hb : (if !s.query_input.isEmpty then s.query_input
      else s.filter_input).isEmpty = false := List.isEmpty_eq_false.mpr hne
  simp only [AppState.apply_filter, hb, hj, hc]
  rfl

/-- Claim C2: if the selected input of `apply_filter` is non-empty and the
external JSON parse fails, or the parse succeeds but conversion to a filter
document fails, then `apply_filter` returns the corresponding error and the
state — in particular the compiled `filter` field — is exactly what it was
before the call. -/
theorem C2_apply_filter_error_leaves_filter
    (p : List Char → Except String Json) (c : Json → Except String Document)
    (s : AppState)
    (hne : (if !s.query_input.isEmpty then s.query_input else s.filter_input) ≠ []) :
    (∀ e, p (if !s.query_input.isEmpty then s.query_input else s.filter_input)
          = Except.error e →
        s.apply_filter p c = (s, Except.error ("Invalid JSON: " ++ e)))
  ∧ ∀ j e, p (if !s.query_input.isEmpty then s.query_input else s.filter_input)
          = Except.ok j → c j = Except.error e →
        s.apply_filter p c = (s, Except.error ("Invalid filter: " ++ e)) :=
  ⟨fun e he => apply_filter_parse_error s p c e hne he,
   fun j e hj hc => apply_filter_convert_error s p c j e hne hj hc⟩

/-- Witness for C2 at a concrete state whose query buffer holds `x`, with a
parser that always fails and with a converter that always fails. -/
theorem C2_witness :
    (AppState.new.push_query_char 'x').apply_filter (fun _ => Except.error "boom")
        (fun _ => Except.ok ⟨[]⟩)
      = (AppState.new.push_query_char 'x', Except.error ("Invalid JSON: " ++ "boom"))
  ∧ (AppState.new.push_query_char 'x').apply_filter (fun _ => Except.ok Json.null)
        (fun _ => Except.error "bad")
      = (AppState.new.push_query_char 'x', Except.error ("Invalid filter: " ++ "bad")) :=
  ⟨(C2_apply_filter_error_leaves_filter (fun _ => Except.error "boom")
      (fun _ => Except.ok ⟨[]⟩) (AppState.new.push_query_char 'x')
      (by decide)).1 "boom" rfl,
   (C2_apply_filter_error_leaves_filter (fun _ => Except.ok Json.null)
      (fun _ => Except.error "bad") (AppState.new.push_query_char 'x')
      (by decide)).2 Json.null "bad" rfl rfl⟩

/-- Claim C3: when the query buffer is non-empty, `apply_filter` compiles
the query buffer's content (first conjunct: the outcome is exactly the
parse/convert pipeline run on `query_input`), and the filter buffer is
ignored entirely (second conjunct: replacing `filter_input` by any other
content changes nothing in the outcome apart from that buffer itself). -/
theorem C3_query_buffer_priority
    (p : List Char → Except String Json) (c : Json → Except String Document)
    (s : AppState) (hq : s.query_input ≠ []) :
    (s.apply_filter p c =
      match p s.query_input with
      | Except.ok j =>
        match c j with
        | Except.ok d => ({ s with filter := some d }, Except.ok ())
        | Except.error e => (s, Except.error ("Invalid filter: " ++ e))
      | Except.error e => (s, Except.error ("Invalid JSON: " ++ e)))
  ∧ ∀ t : List Char,
      ({ s with filter_input := t }.apply_filter p c).2 = (s.apply_filter p c).2
    ∧ ({ s with filter_input := t }.apply_filter p c).1
        = { (s.apply_filter p c).1 with filter_input := t } := by
  have hb : s.query_input.isEmpty = false := List.isEmpty_eq_false.mpr hq
  constructor
  · simp [AppState.apply_filter, hb]
  · intro t
    constructor <;>
      · simp only [AppState.apply_filter]
        cases hp : p s.query_input with
        | ok j => cases hc : c j <;> simp [hb, hp, hc]
        | error e => simp [hb, hp]

/-- Witness for C3 at a concrete state whose query buffer holds `q` and
whose filter buffer holds `f`, with a parser that always succeeds. -/
theorem C3_witness :
    ((AppState.new.push_query_char 'q').push_filter_char 'f').apply_filter
        (fun _ => Except.ok Json.null) (fun _ => Except.ok ⟨[]⟩)
      = ({ (AppState.new.push_query_char 'q').push_filter_char 'f' with
            filter := some ⟨[]⟩ }, Except.ok ()) :=
  (C3_query_buffer_priority (fun _ => Except.ok Json.null) (fun _ => Except.ok ⟨[]⟩)
    ((AppState.new.push_query_char 'q').push_filter_char 'f') (by decide)).1

/-- Claim C4: when the selected input (the query buffer if non-empty,
otherwise the filter buffer) is empty, `apply_filter` succeeds and sets the
compiled filter to `none`, clearing any previously compiled filter; no
other field changes. -/
theorem C4_empty_input_clears_filter
    (p : List Char → Except String Json) (c : Json → Except String Document)
    (s : AppState)
    (h : (if !s.query_input.isEmpty then s.query_input else s.filter_input) = []) :
    s.apply_filter p c = ({ s with filter := none }, Except.ok ()) := by
  have hb : (if !s.query_input.isEmpty then s.query_input
      else s.filter_input).isEmpty = true := by rw [h]; rfl
  simp only [AppState.apply_filter, hb]
  rfl

/-- Witness for C4: the fresh state has both buffers empty, and a state
with a previously compiled filter has it cleared. -/
theorem C4_witness :
    AppState.new.apply_filter (fun _ => Except.error "boom")
        (fun _ => Except.ok ⟨[]⟩)
      = ({ AppState.new with filter := none }, Except.ok ())
  ∧ ({ AppState.new with filter := some ⟨[]⟩ } : AppState).apply_filter
        (fun _ => Except.error "boom") (fun _ => Except.ok ⟨[]⟩)
      = ({ AppState.new with filter := none }, Except.ok ()) :=
  ⟨C4_empty_input_clears_filter (fun _ => Except.error "boom")
      (fun _ => Except.ok ⟨[]⟩) AppState.new (by decide),
   C4_empty_input_clears_filter (fun _ => Except.error "boom")
      (fun _ => Except.ok ⟨[]⟩) { AppState.new with filter := some ⟨[]⟩ } (by decide)⟩

/-- Claim C8: whenever the query/filter compiler produces an InvalidSyntax
or InvalidFilter error, the reporting layer sets the aggregate's `error`
field to the human-readable failure message and discards no unrelated
state: the resulting aggregate is the prior state with only `error`
changed. -/
theorem C8_compile_error_reported
    (p : List Char → Except String Json) (c : Json → Except String Document)
    (s : AppState)
    (hne : (if !s.query_input.isEmpty then s.query_input else s.filter_input) ≠ []) :
    (∀ e, p (if !s.query_input.isEmpty then s.query_input else s.filter_input)
          = Except.error e →
        s.apply_filter_and_report p c
          = { s with error := some ("Invalid JSON: " ++ e) })
  ∧ ∀ j e, p (if !s.query_input.isEmpty then s.query_input else s.filter_input)
          = Except.ok j → c j = Except.error e →
        s.apply_filter_and_report p c
          = { s with error := some ("Invalid filter: " ++ e) } := by
  constructor
  · intro e he
    unfold AppState.apply_filter_and_report
    rw [apply_filter_parse_error s p c e hne he]
    rfl
  · intro j e hj hc
    unfold AppState.apply_filter_and_report
    rw [apply_filter_convert_error s p c j e hne hj hc]
    rfl

/-- Witness for C8 at a concrete state whose filter buffer holds `z`. -/
theorem C8_witness :
    (AppState.new.push_filter_char 'z').apply_filter_and_report
        (fun _ => Except.error "boom") (fun _ => Except.ok ⟨[]⟩)
      = { AppState.new.push_filter_char 'z' with
            error := some ("Invalid JSON: " ++ "boom") }
  ∧ (AppState.new.push_filter_char 'z').apply_filter_and_report
        (fun _ => Except.ok Json.null) (fun _ => Except.error "bad")
      = { AppState.new.push_filter_char 'z' with
            error := some ("Invalid filter: " ++ "bad") } :=
  ⟨(C8_compile_error_reported (fun _ => Except.error "boom")
      (fun _ => Except.ok ⟨[]⟩) (AppState.new.push_filter_char 'z')
      (by decide)).1 "boom" rfl,
   (C8_compile_error_reported (fun _ => Except.ok Json.null)
      (fun _ => Except.error "bad") (AppState.new.push_filter_char 'z')
      (by decide)).2 Json.null "bad" rfl rfl⟩

lemma iterate_next_mod (n c : Nat) (hc : c < n) (k : Nat) :
    (fun x => (x + 1) % n)^[k] c = (c + k) % n := by
  induction k with
  | zero => simpa using (Nat.mod_eq_of_lt hc).symm
  | succ k ih =>
      rw [Function.iterate_succ_apply', ih]
      show ((c + k) % n + 1) % n = (c + (k + 1)) % n
      rw [Nat.mod_add_mod, Nat.add_assoc]

lemma iterate_next_mod_cycle (n c : Nat) (hc : c < n) :
    (fun x => (x + 1) % n)^[n] c = c := by
  rw [iterate_next_mod n c hc n, Nat.add_mod_right]
  exact Nat.mod_eq_of_lt hc

lemma prev_step_eq (n x : Nat) (hn : 0 < n) (hx : x < n) :
    (if x = 0 then n - 1 else x - 1) = (x + (n - 1)) % n := by
  rcases Nat.eq_zero_or_pos x with h0 | hpos
  · subst h0
    simp [Nat.mod_eq_of_lt (Nat.sub_lt hn Nat.one_pos)]
  · have hx0 : x ≠ 0 := Nat.pos_iff_ne_zero.mp hpos
    rw [if_neg hx0]
    have h1 : x + (n - 1) = (x - 1) + n := by omega
    rw [h1, Nat.add_mod_right]
    exact (Nat.mod_eq_of_lt (by omega)).symm

lemma iterate_prev_mod (n : Nat) (hn : 0 < n) (c : Nat) (hc : c < n) (k : Nat) :
    (fun x => if x = 0 then n - 1 else x - 1)^[k] c = (c + k * (n - 1)) % n := by
  induction k with
  | zero => simpa using (Nat.mod_eq_of_lt hc).symm
  | succ k ih =>
      rw [Function.iterate_succ_apply', ih]
      show (if (c + k * (n - 1)) % n = 0 then n - 1 else (c + k * (n - 1)) % n - 1)
          = (c + (k + 1) * (n - 1)) % n
      rw [prev_step_eq n _ hn (Nat.mod_lt _ hn), Nat.mod_add_mod]
      congr 1
      ring

lemma iterate_prev_mod_cycle (n c : Nat) (hc : c < n) :
    (fun x => if x = 0 then n - 1 else x - 1)^[n] c = c := by
  have hn : 0 < n := by omega
  rw [iterate_prev_mod n hn c hc n, Nat.mul_comm n (n - 1), Nat.add_mul_mod_self_right]
  exact Nat.mod_eq_of_lt hc

lemma select_next_db_databases (s : AppState) :
    (s.select_next_db).databases = s.databases := by
  unfold AppState.select_next_db; split <;> rfl

lemma select_next_db_index (s : AppState) (h : s.databases ≠ []) :
    (s.select_next_db).selected_db_index
      = (s.selected_db_index + 1) % s.databases.length := by
  simp [AppState.select_next_db, List.isEmpty_eq_false.mpr h]

lemma select_prev_db_databases (s : AppState) :
    (s.select_prev_db).databases = s.databases := by
  unfold AppState.select_prev_db; repeat' split
  all_goals rfl

lemma select_prev_db_index (s : AppState) (h : s.databases ≠ []) :
    (s.select_prev_db).selected_db_index =
      if s.selected_db_index = 0 then s.databases.length - 1
      else s.selected_db_index - 1 := by
  by_cases h0 : s.selected_db_index = 0 <;>
    simp [AppState.select_prev_db, List.isEmpty_eq_false.mpr h, h0]

lemma iterate_select_next_db (s : AppState) (h : s.databases ≠ []) (k : Nat) :
    (AppState.select_next_db^[k] s).databases = s.databases ∧
    (AppState.select_next_db^[k] s).selected_db_index =
      (fun x => (x + 1) % s.databases.length)^[k] s.selected_db_index := by
  induction k with
  | zero => exact ⟨rfl, rfl⟩
  | succ k ih =>
      rw [Function.iterate_succ_apply', Function.iterate_succ_apply']
      have hne : (AppState.select_next_db^[k] s).databases ≠ [] := by
        rw [ih.1]; exact h
      refine ⟨(select_next_db_databases _).trans ih.1, ?_⟩
      rw [select_next_db_index _ hne, ih.2, ih.1]

lemma iterate_select_prev_db (s : AppState) (h : s.databases ≠ []) (k : Nat) :
    (AppState.select_prev_db^[k] s).databases = s.databases ∧
    (AppState.select_prev_db^[k] s).selected_db_index =
      (fun x => if x = 0 then s.databases.length - 1 else x - 1)^[k]
        s.selected_db_index := by
  induction k with
  | zero => exact ⟨rfl, rfl⟩
  | succ k ih =>
      rw [Function.iterate_succ_apply', Function.iterate_succ_apply']
      have hne : (AppState.select_prev_db^[k] s).databases ≠ [] := by
        rw [ih.1]; exact h
      refine ⟨(select_prev_db_databases _).trans ih.1, ?_⟩
      rw [select_prev_db_index _ hne, ih.2, ih.1]

lemma select_next_coll_collections (s : AppState) :
    (s.select_next_coll).collections = s.collections := by
  unfold AppState.select_next_coll; split <;> rfl

lemma select_next_coll_index (s : AppState) (h : s.collections ≠ []) :
    (s.select_next_coll).selected_coll_index
      = (s.selected_coll_index + 1) % s.collections.length := by
  simp [AppState.select_next_coll, List.isEmpty_eq_false.mpr h]

lemma select_prev_coll_collections (s : AppState) :
    (s.select_prev_coll).collections = s.collections := by
  unfold AppState.select_prev_coll; repeat' split
  all_goals rfl

lemma select_prev_coll_index (s : AppState) (h : s.collections ≠ []) :
    (s.select_prev_coll).selected_coll_index =
      if s.selected_coll_index = 0 then s.collections.length - 1
      else s.selected_coll_index - 1 := by
  by_cases h0 : s.selected_coll_index = 0 <;>
    simp [AppState.select_prev_coll, List.isEmpty_eq_false.mpr h, h0]

lemma iterate_select_next_coll (s : AppState) (h : s.collections ≠ []) (k : Nat) :
    (AppState.select_next_coll^[k] s).collections = s.collections ∧
    (AppState.select_next_coll^[k] s).selected_coll_index =
      (fun x => (x + 1) % s.collections.length)^[k] s.selected_coll_index := by
  induction k with
  | zero => exact ⟨rfl, rfl⟩
  | succ k ih =>
      rw [Function.iterate_succ_apply', Function.iterate_succ_apply']
      have hne : (AppState.select_next_coll^[k] s).collections ≠ [] := by
        rw [ih.1]; exact h
      refine ⟨(select_next_coll_collections _).trans ih.1, ?_⟩
      rw [select_next_coll_index _ hne, ih.2, ih.1]

lemma iterate_select_prev_coll (s : AppState) (h : s.collections ≠ []) (k : Nat) :
    (AppState.select_prev_coll^[k] s).collections = s.collections ∧
    (AppState.select_prev_coll^[k] s).selected_coll_index =
      (fun x => if x = 0 then s.collections.length - 1 else x - 1)^[k]
        s.selected_coll_index := by
  induction k with
  | zero => exact ⟨rfl, rfl⟩
  | succ k ih =>
      rw [Function.iterate_succ_apply', Function.iterate_succ_apply']
      have hne : (AppState.select_prev_coll^[k] s).collections ≠ [] := by
        rw [ih.1]; exact h
      refine ⟨(select_prev_coll_collections _).trans ih.1, ?_⟩
      rw [select_prev_coll_index _ hne, ih.2, ih.1]

lemma select_next_doc_documents (s : AppState) :
    (s.select_next_doc).documents = s.documents := by
  unfold AppState.select_next_doc; split <;> rfl

lemma select_next_doc_index (s : AppState) (h : s.documents ≠ []) :
    (s.select_next_doc).selected_doc_index
      = (s.selected_doc_index + 1) % s.documents.length := by
  simp [AppState.select_next_doc, List.isEmpty_eq_false.mpr h]

lemma select_prev_doc_documents (s : AppState) :
    (s.select_prev_doc).documents = s.documents := by
  unfold AppState.select_prev_doc; repeat' split
  all_goals rfl

lemma select_prev_doc_index (s : AppState) (h : s.documents ≠ []) :
    (s.select_prev_doc).selected_doc_index =
      if s.selected_doc_index = 0 then s.documents.length - 1
      else s.selected_doc_index - 1 := by
  by_cases h0 : s.selected_doc_index = 0 <;>
    simp [AppState.select_prev_doc, List.isEmpty_eq_false.mpr h, h0]

lemma iterate_select_next_doc (s : AppState) (h : s.documents ≠ []) (k : Nat) :
    (AppState.select_next_doc^[k] s).documents = s.documents ∧
    (AppState.select_next_doc^[k] s).selected_doc_index =
      (fun x => (x + 1) % s.documents.length)^[k] s.selected_doc_index := by
  induction k with
  | zero => exact ⟨rfl, rfl⟩
  | succ k ih =>
      rw [Function.iterate_succ_apply', Function.iterate_succ_apply']
      have hne : (AppState.select_next_doc^[k] s).documents ≠ [] := by
        rw [ih.1]; exact h
      refine ⟨(select_next_doc_documents _).trans ih.1, ?_⟩
      rw [select_next_doc_index _ hne, ih.2, ih.1]

lemma iterate_select_prev_doc (s : AppState) (h : s.documents ≠ []) (k : Nat) :
    (AppState.select_prev_doc^[k] s).documents = s.documents ∧
    (AppState.select_prev_doc^[k] s).selected_doc_index =
      (fun x => if x = 0 then s.documents.length - 1 else x - 1)^[k]
        s.selected_doc_index := by
  induction k with
  | zero => exact ⟨rfl, rfl⟩
  | succ k ih =>
      rw [Function.iterate_succ_apply', Function.iterate_succ_apply']
      have hne : (AppState.select_prev_doc^[k] s).documents ≠ [] := by
        rw [ih.1]; exact h
      refine ⟨(select_prev_doc_documents _).trans ih.1, ?_⟩
      rw [select_prev_doc_index _ hne, ih.2, ih.1]

lemma select_next_history_connection_history (s : AppState) :
    (s.select_next_history).connection_history = s.connection_history := by
  unfold AppState.select_next_history; split <;> rfl

lemma select_next_history_index (s : AppState) (h : s.connection_history ≠ []) :
    (s.select_next_history).selected_history_index
      = (s.selected_history_index + 1) % s.connection_history.length := by
  simp [AppState.select_next_history, List.isEmpty_eq_false.mpr h]

lemma select_prev_history_connection_history (s : AppState) :
    (s.select_prev_history).connection_history = s.connection_history := by
  unfold AppState.select_prev_history; repeat' split
  all_goals rfl

lemma select_prev_history_index (s : AppState) (h : s.connection_history ≠ []) :
    (s.select_prev_history).selected_history_index =
      if s.selected_history_index = 0 then s.connection_history.length - 1
      else s.selected_history_index - 1 := by
  by_cases h0 : s.selected_history_index = 0 <;>
    simp [AppState.select_prev_history, List.isEmpty_eq_false.mpr h, h0]

lemma iterate_select_next_history (s : AppState) (h : s.connection_history ≠ []) (k : Nat) :
    (AppState.select_next_history^[k] s).connection_history = s.connection_history ∧
    (AppState.select_next_history^[k] s).selected_history_index =
      (fun x => (x + 1) % s.connection_history.length)^[k] s.selected_history_index := by
  induction k with
  | zero => exact ⟨rfl, rfl⟩
  | succ k ih =>
      rw [Function.iterate_succ_apply', Function.iterate_succ_apply']
      have hne : (AppState.select_next_history^[k] s).connection_history ≠ [] := by
        rw [ih.1]; exact h
      refine ⟨(select_next_history_connection_history _).trans ih.1, ?_⟩
      rw [select_next_history_index _ hne, ih.2, ih.1]

lemma iterate_select_prev_history (s : AppState) (h : s.connection_history ≠ []) (k : Nat) :
    (AppState.select_prev_history^[k] s).connection_history = s.connection_history ∧
    (AppState.select_prev_history^[k] s).selected_history_index =
      (fun x => if x = 0 then s.connection_history.length - 1 else x - 1)^[k]
        s.selected_history_index := by
  induction k with
  | zero => exact ⟨rfl, rfl⟩
  | succ k ih =>
      rw [Function.iterate_succ_apply', Function.iterate_succ_apply']
      have hne : (AppState.select_prev_history^[k] s).connection_history ≠ [] := by
        rw [ih.1]; exact h
      refine ⟨(select_prev_history_connection_history _).trans ih.1, ?_⟩
      rw [select_prev_history_index _ hne, ih.2, ih.1]

/-- Claim C5, as stated, is false: it asserts the N-fold cycle for every
state with a non-empty list, but when the cursor is out of range (reachable
for documents, because `set_documents` does not reset the cursor) the cycle
does not return to the starting value.  Concretely: load two documents,
select the second (cursor 1), reload a one-document list (cursor stays 1,
N = 1); one application of `select_next_doc` yields cursor 0 ≠ 1. -/
theorem C5_counterexample :
    ((((AppState.new.set_documents [⟨[]⟩, ⟨[]⟩]).select_next_doc).set_documents
        [⟨[]⟩]).documents.length = 1)
  ∧ ((((AppState.new.set_documents [⟨[]⟩, ⟨[]⟩]).select_next_doc).set_documents
        [⟨[]⟩]).selected_doc_index = 1)
  ∧ (AppState.select_next_doc^[1]
        (((AppState.new.set_documents [⟨[]⟩, ⟨[]⟩]).select_next_doc).set_documents
          [⟨[]⟩])).selected_doc_index ≠ 1 := by
  refine ⟨rfl, rfl, ?_⟩
  decide

/-- Claim C5, amended with the in-range precondition the spec's cursor
invariant assumes, stated independently per list: for each of the four
lists, if that list is non-empty with length N then a single `select_next`
performs (cursor + 1) mod N, and if in addition that list's cursor is below
N then N applications of `select_next` (resp. `select_prev`) return the
cursor to its starting value. -/
theorem C5_cursor_cycle (s : AppState) :
    (s.databases ≠ [] →
      (s.select_next_db).selected_db_index
          = (s.selected_db_index + 1) % s.databases.length
      ∧ (s.selected_db_index < s.databases.length →
          (AppState.select_next_db^[s.databases.length] s).selected_db_index
              = s.selected_db_index
        ∧ (AppState.select_prev_db^[s.databases.length] s).selected_db_index
              = s.selected_db_index))
  ∧ (s.collections ≠ [] →
      (s.select_next_coll).selected_coll_index
          = (s.selected_coll_index + 1) % s.collections.length
      ∧ (s.selected_coll_index < s.collections.length →
          (AppState.select_next_coll^[s.collections.length] s).selected_coll_index
              = s.selected_coll_index
        ∧ (AppState.select_prev_coll^[s.collections.length] s).selected_coll_index
              = s.selected_coll_index))
  ∧ (s.documents ≠ [] →
      (s.select_next_doc).selected_doc_index
          = (s.selected_doc_index + 1) % s.documents.length
      ∧ (s.selected_doc_index < s.documents.length →
          (AppState.select_next_doc^[s.documents.length] s).selected_doc_index
              = s.selected_doc_index
        ∧ (AppState.select_prev_doc^[s.documents.length] s).selected_doc_index
              = s.selected_doc_index))
  ∧ (s.connection_history ≠ [] →
      (s.select_next_history).selected_history_index
          = (s.selected_history_index + 1) % s.connection_history.length
      ∧ (s.selected_history_index < s.connection_history.length →
          (AppState.select_next_history^[s.connection_history.length]
              s).selected_history_index = s.selected_history_index
        ∧ (AppState.select_prev_history^[s.connection_history.length]
              s).selected_history_index = s.selected_history_index)) := by
  refine ⟨fun hdb => ⟨select_next_db_index s hdb, fun hdbi => ⟨?_, ?_⟩⟩,
          fun hco => ⟨select_next_coll_index s hco, fun hcoi => ⟨?_, ?_⟩⟩,
          fun hdo => ⟨select_next_doc_index s hdo, fun hdoi => ⟨?_, ?_⟩⟩,
          fun hhi => ⟨select_next_history_index s hhi, fun hhii => ⟨?_, ?_⟩⟩⟩
  · rw [(iterate_select_next_db s hdb _).2]
    exact iterate_next_mod_cycle _ _ hdbi
  · rw [(iterate_select_prev_db s hdb _).2]
    exact iterate_prev_mod_cycle _ _ hdbi
  · rw [(iterate_select_next_coll s hco _).2]
    exact iterate_next_mod_cycle _ _ hcoi
  · rw [(iterate_select_prev_coll s hco _).2]
    exact iterate_prev_mod_cycle _ _ hcoi
  · rw [(iterate_select_next_doc s hdo _).2]
    exact iterate_next_mod_cycle _ _ hdoi
  · rw [(iterate_select_prev_doc s hdo _).2]
    exact iterate_prev_mod_cycle _ _ hdoi
  · rw [(iterate_select_next_history s hhi _).2]
    exact iterate_next_mod_cycle _ _ hhii
  · rw [(iterate_select_prev_history s hhi _).2]
    exact iterate_prev_mod_cycle _ _ hhii

/-- Witness for C5: a state with only the database list loaded (collections,
documents and history all still empty) exercises the database conjunct with
its hypotheses discharged concretely, and `sampleState` exercises the
history conjunct. -/
theorem C5_witness :
    ((AppState.new.set_databases [⟨"admin", 1⟩]).select_next_db).selected_db_index
        = ((AppState.new.set_databases [⟨"admin", 1⟩]).selected_db_index + 1)
            % (AppState.new.set_databases [⟨"admin", 1⟩]).databases.length
  ∧ (AppState.select_next_db^[(AppState.new.set_databases
        [⟨"admin", 1⟩]).databases.length]
        (AppState.new.set_databases [⟨"admin", 1⟩])).selected_db_index
        = (AppState.new.set_databases [⟨"admin", 1⟩]).selected_db_index
  ∧ (AppState.select_prev_history^[sampleState.connection_history.length]
        sampleState).selected_history_index = sampleState.selected_history_index := by
  have h1 := (C5_cursor_cycle (AppState.new.set_databases [⟨"admin", 1⟩])).1
    (by exact List.cons_ne_nil _ _)
  have h2 := (C5_cursor_cycle sampleState).2.2.2 (by exact List.cons_ne_nil _ _)
  exact ⟨h1.1, (h1.2 (by decide)).1, (h2.2 (by decide)).2⟩
